import Mathlib

/-!
Shallow embedding of the `bevy_sprite3d` fork's core (`src/lib.rs`,
`src/quad.rs`): quantized mesh/material cache keys, the quad mesh
generator, the bundle-builder / deferred-finalization resolution
pipeline, and the per-frame change-reaction systems.

Rust `f32` values are modelled as exact rationals; the Rust `as u32` /
`as u8` casts (truncation toward zero with saturation) are modelled
explicitly.  Engine handles (images, atlas layouts, meshes, materials)
are modelled as natural numbers; the engine's asset stores and the
plugin's two `HashMap` caches are modelled as association lists.
-/

namespace S3D

/-- Rust `x as u32` applied to a finite float value, modelled on ℚ:
truncation toward zero, saturating at `0` below and `u32::MAX` above.
For nonnegative values truncation toward zero coincides with the floor;
negative values saturate to `0` (`Int.toNat` clamps them). -/
def castU32 (q : ℚ) : ℕ := min q.floor.toNat 4294967295

/-- Rust `x as u8` applied to a finite float value, modelled on ℚ. -/
def castU8 (q : ℚ) : ℕ := min q.floor.toNat 255

/-- A float channel value that may be NaN (needed to model the cast
`(c.red * 255.) as u8` on arbitrary colours: in Rust a NaN casts to 0). -/
inductive F32 where
  | nan : F32
  | val (q : ℚ) : F32
deriving DecidableEq

/-- Multiplication by the literal `255.` as in `reduce_colour`
(`src/lib.rs:78`): NaN is absorbing. -/
def F32.mul255 : F32 → F32
  | .nan => .nan
  | .val q => .val (q * 255)

/-- Rust `as u8` on a possibly-NaN float: NaN casts to 0, finite values
truncate toward zero and saturate into `[0, 255]`. -/
def F32.toU8 : F32 → ℕ
  | .nan => 0
  | .val q => castU8 q

/-- One channel of `reduce_colour` (`src/lib.rs:77-82`):
`(channel * 255.) as u8`. -/
def reduceChannel (x : F32) : ℕ := x.mul255.toU8

/-- The type `bevy::color::LinearRgba`, channels as exact rationals. -/
structure LinearRgba where
  red : ℚ
  green : ℚ
  blue : ℚ
  alpha : ℚ
deriving DecidableEq

/-- The constant `LinearRgba::BLACK` (alpha 1). -/
def LinearRgba.BLACK : LinearRgba := ⟨0, 0, 0, 1⟩

/-- The constant `LinearRgba::WHITE`, the `StandardMaterial::default()` base colour. -/
def LinearRgba.WHITE : LinearRgba := ⟨1, 1, 1, 1⟩

/-- The function `reduce_colour` (`src/lib.rs:76-82`): quantizes the four channels of a
linear colour to bytes by `(c * 255.) as u8` each. -/
def reduce_colour (c : LinearRgba) : List ℕ :=
  [reduceChannel (.val c.red), reduceChannel (.val c.green),
   reduceChannel (.val c.blue), reduceChannel (.val c.alpha)]

/-- The function `reduce_color_from_bevy` (`src/lib.rs:84`).  `Sprite.color` is modelled
directly as a linear colour, on which `Color::to_linear` is the identity
(colour-space conversion belongs to the host engine, out of scope). -/
def reduce_color_from_bevy (c : LinearRgba) : List ℕ := reduce_colour c

/-- The constant `MESH_CACHE_GRANULARITY` (`src/lib.rs:37`). -/
def MESH_CACHE_GRANULARITY : ℚ := 1000

/-- The type `bevy::sprite::AlphaMode`.  The `mask` cutoff is an exact rational. -/
inductive AlphaMode where
  | alphaOpaque : AlphaMode
  | mask (cutoff : ℚ) : AlphaMode
  | blend : AlphaMode
  | premultiplied : AlphaMode
  | addMode : AlphaMode
  | multiply : AlphaMode
  | alphaToCoverage : AlphaMode
deriving DecidableEq

/-- The constant `DEFAULT_ALPHA_MODE` (`src/lib.rs:51`): `AlphaMode::Mask(0.5)`. -/
def DEFAULT_ALPHA_MODE : AlphaMode := .mask (1/2)

/-- The material cache key `MatKey` (`src/lib.rs:39-49`).  `HashableAlphaMode` only changes the
hash, not the derived equality, so it is modelled as the alpha mode
itself; image handles are naturals. -/
structure MatKey where
  image : ℕ
  alpha_mode : AlphaMode
  unlit : Bool
  emissive : List ℕ
  base_color : List ℕ
  flip_x : Bool
  flip_y : Bool
deriving DecidableEq

/-- A mesh-cache key, `[u32; 9]` in the source. -/
abbrev MeshKey := List ℕ

/-- The type `bevy::math::URect`: an axis-aligned pixel rectangle with `u32`
coordinates, as stored in `TextureAtlasLayout::textures`. -/
structure URect where
  minx : ℕ
  miny : ℕ
  maxx : ℕ
  maxy : ℕ
deriving DecidableEq

/-- The accessor `URect::width` (`max.x - min.x`; layouts are assumed well formed,
`max ≥ min`, so natural subtraction is exact). -/
def URect.width (r : URect) : ℕ := r.maxx - r.minx

/-- The accessor `URect::height`. -/
def URect.height (r : URect) : ℕ := r.maxy - r.miny

/-- The field `Sprite.texture_atlas`: layout handle plus current frame index. -/
structure TextureAtlas where
  layout : ℕ
  index : ℕ
deriving DecidableEq

/-- The material-relevant and geometry-relevant fields of
`bevy::sprite::Sprite` read by this plugin. -/
structure Sprite where
  image : ℕ
  texture_atlas : Option TextureAtlas
  color : LinearRgba
  flip_x : Bool
  flip_y : Bool
deriving DecidableEq

/-- The `Sprite3d` component (`src/lib.rs:598-636`). -/
structure Sprite3d where
  texture_atlas_keys : List MeshKey
  alpha_mode : AlphaMode
  unlit : Bool
  emissive : LinearRgba
  pixels_per_metre : ℚ
  pivot : Option (ℚ × ℚ)
  double_sided : Bool
deriving DecidableEq

/-- The default descriptor `Sprite3d::default()` (`src/lib.rs:652-664`). -/
def Sprite3d.default : Sprite3d :=
  { texture_atlas_keys := []
    pixels_per_metre := 100
    pivot := none
    alpha_mode := DEFAULT_ALPHA_MODE
    unlit := false
    double_sided := true
    emissive := LinearRgba.BLACK }

/-- A mesh asset: position/normal/uv attributes plus triangle indices,
with exact-rational coordinates. -/
structure Mesh where
  positions : List (ℚ × ℚ × ℚ)
  normals : List (ℚ × ℚ × ℚ)
  uvs : List (ℚ × ℚ)
  indices : List ℕ
deriving DecidableEq

/-- The operation `Mesh::insert_attribute(ATTRIBUTE_UV_0, ...)`: replaces the UV set. -/
def Mesh.withUV (m : Mesh) (uvs : List (ℚ × ℚ)) : Mesh := { m with uvs }

/-- The function `quad` (`src/lib.rs:519-565`): an axis-aligned quad facing +z with 8
positions (front and back copies), pivot-offset positions, full-unit
default UVs and one or two index pairs. -/
def quad (w h : ℚ) (pivot : Option (ℚ × ℚ)) (double_sided : Bool) : Mesh :=
  let w2 := w / 2
  let h2 := h / 2
  let vertices : List (ℚ × ℚ × ℚ) :=
    match pivot with
    | none =>
        [(-w2, -h2, 0), (w2, -h2, 0), (-w2, h2, 0), (w2, h2, 0),
         (-w2, -h2, 0), (w2, -h2, 0), (-w2, h2, 0), (w2, h2, 0)]
    | some p =>
        let px := p.1 * w
        let py := p.2 * h
        [(-px, -py, 0), (w - px, -py, 0), (-px, h - py, 0), (w - px, h - py, 0),
         (-px, -py, 0), (w - px, -py, 0), (-px, h - py, 0), (w - px, h - py, 0)]
  { positions := vertices
    normals :=
      [(0, 0, 1), (0, 0, 1), (0, 0, 1), (0, 0, 1),
       (0, 0, -1), (0, 0, -1), (0, 0, -1), (0, 0, -1)]
    uvs :=
      [(0, 1), (1, 1), (0, 0), (1, 0),
       (0, 1), (1, 1), (0, 0), (1, 0)]
    indices :=
      if double_sided then [0, 1, 2, 1, 3, 2, 5, 4, 6, 7, 5, 6]
      else [0, 1, 2, 1, 3, 2] }

/-- The front/back corner list of the unpivoted `[0,w] × [0,h]` rectangle,
in the vertex order used by `quad`. -/
def quadCorners (w h : ℚ) : List (ℚ × ℚ × ℚ) :=
  [(0, 0, 0), (w, 0, 0), (0, h, 0), (w, h, 0),
   (0, 0, 0), (w, 0, 0), (0, h, 0), (w, h, 0)]

/-- The geometry key of a sprite without a texture atlas
(`src/lib.rs:211-216`): quantized width, height, pivot, sidedness, with
the four sub-rectangle slots zero-filled. -/
def meshKeyPlain (w h : ℚ) (pivot : ℚ × ℚ) (double_sided : Bool) : MeshKey :=
  [castU32 (w * MESH_CACHE_GRANULARITY),
   castU32 (h * MESH_CACHE_GRANULARITY),
   castU32 (pivot.1 * MESH_CACHE_GRANULARITY),
   castU32 (pivot.2 * MESH_CACHE_GRANULARITY),
   if double_sided then 1 else 0,
   0, 0, 0, 0]

/-- The fractional sub-rectangle of an atlas frame within its image
(`src/lib.rs:163-169`): pixel bounds divided by the image dimensions.
Returned as `(min.x, min.y, max.x, max.y)`. -/
def fracRect (iw ih : ℕ) (r : URect) : ℚ × ℚ × ℚ × ℚ :=
  ((r.minx : ℚ) / (iw : ℚ), (r.miny : ℚ) / (ih : ℚ),
   (r.maxx : ℚ) / (iw : ℚ), (r.maxy : ℚ) / (ih : ℚ))

/-- The geometry key of one atlas sub-rectangle (`src/lib.rs:157-187`):
world-space rect size, the pivot rescaled into the fractional rect, the
sidedness flag and the quantized fractional bounds. -/
def meshKeyAtlasRect (iw ih : ℕ) (ppm : ℚ) (pivot : ℚ × ℚ)
    (double_sided : Bool) (r : URect) : MeshKey :=
  let w := (r.width : ℚ) / ppm
  let h := (r.height : ℚ) / ppm
  let fr := fracRect iw ih r
  let rpx := pivot.1 * (fr.2.2.1 - fr.1) + fr.1
  let rpy := pivot.2 * (fr.2.2.2 - fr.2.1) + fr.2.1
  [castU32 (w * MESH_CACHE_GRANULARITY),
   castU32 (h * MESH_CACHE_GRANULARITY),
   castU32 (rpx * MESH_CACHE_GRANULARITY),
   castU32 (rpy * MESH_CACHE_GRANULARITY),
   if double_sided then 1 else 0,
   castU32 (fr.1 * MESH_CACHE_GRANULARITY),
   castU32 (fr.2.1 * MESH_CACHE_GRANULARITY),
   castU32 (fr.2.2.1 * MESH_CACHE_GRANULARITY),
   castU32 (fr.2.2.2 * MESH_CACHE_GRANULARITY)]

/-- The atlas UV overwrite (`src/lib.rs:196-204`): the fractional rect
corners in the same vertex order, front then back copy. -/
def atlasUVs (iw ih : ℕ) (r : URect) : List (ℚ × ℚ) :=
  let fr := fracRect iw ih r
  [(fr.1, fr.2.2.2), (fr.2.2.1, fr.2.2.2), (fr.1, fr.2.1), (fr.2.2.1, fr.2.1),
   (fr.1, fr.2.2.2), (fr.2.2.1, fr.2.2.2), (fr.1, fr.2.1), (fr.2.2.1, fr.2.1)]

/-- Association-list lookup, modelling `HashMap::get` / `Assets::get`. -/
def alookup {α β : Type} [DecidableEq α] : List (α × β) → α → Option β
  | [], _ => none
  | (k, v) :: rest, a => if k = a then some v else alookup rest a

/-- The type `bevy::math::Affine2`, used by `StandardMaterial::uv_transform`. -/
structure Affine2 where
  m00 : ℚ
  m01 : ℚ
  m10 : ℚ
  m11 : ℚ
  tx : ℚ
  ty : ℚ
deriving DecidableEq

/-- The identity affine transform (`Affine2::IDENTITY`). -/
def Affine2.id : Affine2 := ⟨1, 0, 0, 1, 0, 0⟩

/-- Affine composition `a * b` (apply `b` first, then `a`). -/
def Affine2.mul (a b : Affine2) : Affine2 :=
  { m00 := a.m00 * b.m00 + a.m10 * b.m01
    m01 := a.m01 * b.m00 + a.m11 * b.m01
    m10 := a.m00 * b.m10 + a.m10 * b.m11
    m11 := a.m01 * b.m10 + a.m11 * b.m11
    tx := a.m00 * b.tx + a.m10 * b.ty + a.tx
    ty := a.m01 * b.tx + a.m11 * b.ty + a.ty }

/-- The constant `StandardMaterial::FLIP_HORIZONTAL`: mirror u around 1/2. -/
def Affine2.flipH : Affine2 := ⟨-1, 0, 0, 1, 1, 0⟩

/-- The constant `StandardMaterial::FLIP_VERTICAL`: mirror v around 1/2. -/
def Affine2.flipV : Affine2 := ⟨1, 0, 0, -1, 0, 1⟩

/-- The type `bevy::render::render_resource::Face` for `cull_mode`. -/
inductive Face where
  | front : Face
  | back : Face
deriving DecidableEq

/-- The fields of `bevy::pbr::StandardMaterial` this plugin reads or
writes, plus `perceptual_roughness` / `reflectance` as representatives of
the user-settable fields it must preserve. -/
structure StdMaterial where
  base_color_texture : Option ℕ
  cull_mode : Option Face
  alpha_mode : AlphaMode
  unlit : Bool
  perceptual_roughness : ℚ
  reflectance : ℚ
  emissive : LinearRgba
  base_color : LinearRgba
  uv_transform : Affine2
deriving DecidableEq

/-- The default `StandardMaterial::default()` restricted to the modelled fields. -/
def StdMaterial.default : StdMaterial :=
  { base_color_texture := none
    cull_mode := some .back
    alpha_mode := .alphaOpaque
    unlit := false
    perceptual_roughness := 1/2
    reflectance := 1/2
    emissive := LinearRgba.BLACK
    base_color := LinearRgba.WHITE
    uv_transform := Affine2.id }

/-- The host-engine operation `StandardMaterial::flip(horizontal, vertical)` of the host engine:
pre-composes the uv transform with the requested mirror transforms. -/
def StdMaterial.flip (m : StdMaterial) (horizontal vertical : Bool) : StdMaterial :=
  let uv := if horizontal then Affine2.mul Affine2.flipH m.uv_transform else m.uv_transform
  let uv := if vertical then Affine2.mul Affine2.flipV uv else uv
  { m with uv_transform := uv }

/-- The function `build_material` (`src/lib.rs:571-589`). -/
def build_material (image : ℕ) (alpha_mode : AlphaMode) (unlit : Bool)
    (emissive : LinearRgba) (flip_x flip_y : Bool) : StdMaterial :=
  let mat : StdMaterial :=
    { base_color_texture := some image
      cull_mode := some .back
      alpha_mode := alpha_mode
      unlit := unlit
      perceptual_roughness := 1/2
      reflectance := 3/20
      emissive := emissive
      base_color := LinearRgba.WHITE
      uv_transform := Affine2.id }
  mat.flip flip_x flip_y

/-- The material key built inline in `bundle_builder`
(`src/lib.rs:261-268`), `finalize_waiting_sprites` (`src/lib.rs:410-417`)
and `handle_images` (`src/lib.rs:469-475`) — the three occurrences are
identical. -/
def matKeyOf (sp : Sprite) (s3 : Sprite3d) : MatKey :=
  { image := sp.image
    alpha_mode := s3.alpha_mode
    unlit := s3.unlit
    emissive := reduce_colour s3.emissive
    base_color := reduce_color_from_bevy sp.color
    flip_x := sp.flip_x
    flip_y := sp.flip_y }

/-- The user-material delta block, identical in `bundle_builder`
(`src/lib.rs:244-257`), `finalize_waiting_sprites` (`src/lib.rs:394-407`)
and `handle_images` (`src/lib.rs:449-462`): set the texture, then apply
alpha mode / unlit / emissive / flip only when non-default. -/
def applyUserDeltas (s3 : Sprite3d) (sp : Sprite) (m : StdMaterial) : StdMaterial :=
  let m1 := { m with base_color_texture := some sp.image }
  let m2 := if s3.alpha_mode ≠ DEFAULT_ALPHA_MODE then { m1 with alpha_mode := s3.alpha_mode } else m1
  let m3 := if s3.unlit then { m2 with unlit := true } else m2
  let m4 := if s3.emissive ≠ LinearRgba.BLACK then { m3 with emissive := s3.emissive } else m3
  if sp.flip_x || sp.flip_y then m4.flip sp.flip_x sp.flip_y else m4

/-- Overwrite the stored material behind a handle
(`materials.get_mut` followed by field mutation). -/
def storeUpdate (store : List (ℕ × StdMaterial)) (k : ℕ) (m : StdMaterial) :
    List (ℕ × StdMaterial) :=
  store.map (fun p => if p.1 = k then (k, m) else p)

/-- The material-side mutable state: the `material_cache`, the
`Assets<StandardMaterial>` store as an association list, and the next
fresh handle the store will allocate. -/
structure MatSt where
  cache : List (MatKey × ℕ)
  store : List (ℕ × StdMaterial)
  ctr : ℕ
deriving DecidableEq

/-- The material-handling block shared verbatim by `bundle_builder`
(`src/lib.rs:242-278`) and `finalize_waiting_sprites`
(`src/lib.rs:393-427`).  With a user-supplied material the cache is
bypassed and the existing asset is patched in place; otherwise the
material cache is consulted and, on a miss, `build_material` plus the
sprite's tint produces a fresh asset that is cached.  Returns the
attached handle and the updated state. -/
def materialPhase (sp : Sprite) (s3 : Sprite3d) (userMat : Bool) (curMat : ℕ)
    (st : MatSt) : ℕ × MatSt :=
  if userMat then
    match alookup st.store curMat with
    | some m =>
        (curMat, { st with store := storeUpdate st.store curMat (applyUserDeltas s3 sp m) })
    | none => (curMat, st)
  else
    let key := matKeyOf sp s3
    match alookup st.cache key with
    | some h => (h, st)
    | none =>
        let m := { build_material sp.image s3.alpha_mode s3.unlit s3.emissive sp.flip_x sp.flip_y
                   with base_color := sp.color }
        (st.ctr, { cache := (key, st.ctr) :: st.cache,
                   store := (st.ctr, m) :: st.store,
                   ctr := st.ctr + 1 })

/-- The geometry-side state threaded through the atlas loop: the
sprite's `texture_atlas_keys`, the `mesh_cache`, the `Assets<Mesh>` store
and its next fresh handle. -/
structure BuildSt where
  keys : List MeshKey
  mesh_cache : List (MeshKey × ℕ)
  meshes : List (ℕ × Mesh)
  meshCtr : ℕ
deriving DecidableEq

/-- The cache-population half of one atlas-loop iteration, identical in
both paths (`src/lib.rs:193-207` and `src/lib.rs:353-366`): if the key is
absent, build the rect-sized quad, overwrite its UVs with the fractional
rect and cache the fresh handle. -/
def cacheEnsure (iw ih : ℕ) (ppm : ℚ) (pivot : ℚ × ℚ) (double_sided : Bool)
    (st : BuildSt) (r : URect) (key : MeshKey) : BuildSt :=
  if (alookup st.mesh_cache key).isSome then st
  else
    let wr := (r.width : ℚ) / ppm
    let hr := (r.height : ℚ) / ppm
    let m := (quad wr hr (some pivot) double_sided).withUV (atlasUVs iw ih r)
    { st with mesh_cache := (key, st.meshCtr) :: st.mesh_cache,
              meshes := (st.meshCtr, m) :: st.meshes,
              meshCtr := st.meshCtr + 1 }

/-- One iteration of the `bundle_builder` atlas loop
(`src/lib.rs:157-208`): push the key only when it differs from the last
pushed key, then ensure the mesh is cached. -/
def atlasStepImm (iw ih : ℕ) (ppm : ℚ) (pivot : ℚ × ℚ) (double_sided : Bool)
    (st : BuildSt) (r : URect) : BuildSt :=
  let key := meshKeyAtlasRect iw ih ppm pivot double_sided r
  let keys := if st.keys.getLast? = some key then st.keys else st.keys ++ [key]
  cacheEnsure iw ih ppm pivot double_sided { st with keys } r key

/-- One iteration of the `finalize_waiting_sprites` atlas loop
(`src/lib.rs:330-367`): push the key unconditionally, then ensure the
mesh is cached. -/
def atlasStepDeferred (iw ih : ℕ) (ppm : ℚ) (pivot : ℚ × ℚ) (double_sided : Bool)
    (st : BuildSt) (r : URect) : BuildSt :=
  let key := meshKeyAtlasRect iw ih ppm pivot double_sided r
  cacheEnsure iw ih ppm pivot double_sided { st with keys := st.keys ++ [key] } r key

/-- The `bundle_builder` atlas loop over all layout rects. -/
def atlasFoldImm (iw ih : ℕ) (ppm : ℚ) (pivot : ℚ × ℚ) (double_sided : Bool) :
    List URect → BuildSt → BuildSt
  | [], st => st
  | r :: rest, st =>
      atlasFoldImm iw ih ppm pivot double_sided rest
        (atlasStepImm iw ih ppm pivot double_sided st r)

/-- The `finalize_waiting_sprites` atlas loop over all layout rects. -/
def atlasFoldDeferred (iw ih : ℕ) (ppm : ℚ) (pivot : ℚ × ℚ) (double_sided : Bool) :
    List URect → BuildSt → BuildSt
  | [], st => st
  | r :: rest, st =>
      atlasFoldDeferred iw ih ppm pivot double_sided rest
        (atlasStepDeferred iw ih ppm pivot double_sided st r)

/-- Outcome of attempting to resolve one sprite this frame:
`notReady` models "defer / skip and try again later" (`continue` on an
unready asset), `panicked` models a Rust index-out-of-bounds panic. -/
inductive BuildResult (α : Type) where
  | notReady : BuildResult α
  | panicked : BuildResult α
  | ok (a : α) : BuildResult α
deriving DecidableEq

/-- The per-entity components touched by the pipeline: the `Sprite3d`
and `Sprite` components, the attached `Mesh3d` and
`MeshMaterial3d<StandardMaterial>` handles, the `Sprite3dUserMaterial`
marker and the `Sprite3dBuilder` marker. -/
structure SpriteEntity where
  sprite3d : Sprite3d
  sprite : Sprite
  mesh : ℕ
  mat : ℕ
  userMaterial : Bool
  builder : Bool
deriving DecidableEq

/-- The world state the systems read and write: the image and
atlas-layout asset stores (present = loaded), the mesh/material asset
stores with their next fresh handles, and the two plugin caches. -/
structure World where
  images : List (ℕ × (ℕ × ℕ))
  layouts : List (ℕ × List URect)
  mesh_cache : List (MeshKey × ℕ)
  meshes : List (ℕ × Mesh)
  meshCtr : ℕ
  mats : MatSt
deriving DecidableEq

/-- The mesh-attachment block shared verbatim by `bundle_builder`
(`src/lib.rs:222-240`) and `finalize_waiting_sprites`
(`src/lib.rs:378-391`): select `texture_atlas_keys[atlas.index]` (or the
first key without an atlas; Rust indexing panics when out of bounds),
then use the cached mesh or build and cache a full-image quad. -/
def selectMeshPhase (sp : Sprite) (keys : List MeshKey) (w h : ℚ)
    (pivot : Option (ℚ × ℚ)) (double_sided : Bool)
    (mc : List (MeshKey × ℕ)) (meshes : List (ℕ × Mesh)) (ctr : ℕ) :
    BuildResult (ℕ × List (MeshKey × ℕ) × List (ℕ × Mesh) × ℕ) :=
  let keyOpt :=
    match sp.texture_atlas with
    | some ta => keys[ta.index]?
    | none => keys.head?
  match keyOpt with
  | none => .panicked
  | some key =>
      match alookup mc key with
      | some m => .ok (m, mc, meshes, ctr)
      | none => .ok (ctr, (key, ctr) :: mc, (ctr, quad w h pivot double_sided) :: meshes, ctr + 1)

/-- The tail shared verbatim by both resolution paths once the key list
has been built: attach the mesh, run the material block, clear the
`Sprite3dBuilder` marker. -/
def finishResolve (w : World) (ent : SpriteEntity) (wq hq : ℚ) (st1 : BuildSt) :
    BuildResult (World × SpriteEntity) :=
  match selectMeshPhase ent.sprite st1.keys wq hq ent.sprite3d.pivot
      ent.sprite3d.double_sided st1.mesh_cache st1.meshes st1.meshCtr with
  | .panicked => .panicked
  | .notReady => .notReady
  | .ok (meshH, mc, meshes, mctr) =>
      let matOut := materialPhase ent.sprite ent.sprite3d ent.userMaterial ent.mat w.mats
      .ok ({ w with mesh_cache := mc, meshes := meshes, meshCtr := mctr, mats := matOut.2 },
           { ent with
               sprite3d := { ent.sprite3d with texture_atlas_keys := st1.keys }
               mesh := meshH
               mat := matOut.1
               builder := false })

/-- Resolution of one builder-marked entity by `bundle_builder`
(`src/lib.rs:120-281`): defer when the image or layout asset is unready;
otherwise build the key list (with the consecutive-duplicate check on
push), attach the mesh and material and clear the builder marker. -/
def bundleBuilderEntity (w : World) (ent : SpriteEntity) :
    BuildResult (World × SpriteEntity) :=
  match alookup w.images ent.sprite.image with
  | none => .notReady
  | some dims =>
      let readyRects : BuildResult (Option (List URect)) :=
        match ent.sprite.texture_atlas with
        | some ta =>
            match alookup w.layouts ta.layout with
            | some rects => .ok (some rects)
            | none => .notReady
        | none => .ok none
      match readyRects with
      | .notReady => .notReady
      | .panicked => .panicked
      | .ok maybeRects =>
          let wq := (dims.1 : ℚ) / ent.sprite3d.pixels_per_metre
          let hq := (dims.2 : ℚ) / ent.sprite3d.pixels_per_metre
          let pivot := ent.sprite3d.pivot.getD (1/2, 1/2)
          let st0 : BuildSt :=
            ⟨ent.sprite3d.texture_atlas_keys, w.mesh_cache, w.meshes, w.meshCtr⟩
          let st1 :=
            match maybeRects with
            | some rects =>
                atlasFoldImm dims.1 dims.2 ent.sprite3d.pixels_per_metre pivot
                  ent.sprite3d.double_sided rects st0
            | none =>
                let key := meshKeyPlain wq hq pivot ent.sprite3d.double_sided
                { st0 with
                    keys := if st0.keys.getLast? = some key then st0.keys
                            else st0.keys ++ [key] }
          finishResolve w ent wq hq st1

/-- Resolution of one entity by `finalize_waiting_sprites` once its wait
task reported success (`src/lib.rs:322-429`): skip (and retry never —
the record is dropped) when the image or layout asset is missing;
otherwise build the key list with unconditional pushes, then run the
code shared with `bundle_builder`. -/
def finalizeEntity (w : World) (ent : SpriteEntity) :
    BuildResult (World × SpriteEntity) :=
  match alookup w.images ent.sprite.image with
  | none => .notReady
  | some dims =>
      let readyRects : BuildResult (Option (List URect)) :=
        match ent.sprite.texture_atlas with
        | some ta =>
            match alookup w.layouts ta.layout with
            | some rects => .ok (some rects)
            | none => .notReady
        | none => .ok none
      match readyRects with
      | .notReady => .notReady
      | .panicked => .panicked
      | .ok maybeRects =>
          let wq := (dims.1 : ℚ) / ent.sprite3d.pixels_per_metre
          let hq := (dims.2 : ℚ) / ent.sprite3d.pixels_per_metre
          let pivot := ent.sprite3d.pivot.getD (1/2, 1/2)
          let st0 : BuildSt :=
            ⟨ent.sprite3d.texture_atlas_keys, w.mesh_cache, w.meshes, w.meshCtr⟩
          let st1 :=
            match maybeRects with
            | some rects =>
                atlasFoldDeferred dims.1 dims.2 ent.sprite3d.pixels_per_metre pivot
                  ent.sprite3d.double_sided rects st0
            | none =>
                let key := meshKeyPlain wq hq pivot ent.sprite3d.double_sided
                { st0 with keys := st0.keys ++ [key] }
          finishResolve w ent wq hq st1

/-- The keys list attached by a successful resolution, `none` when the
resolution deferred, skipped or panicked. -/
def resultKeys : BuildResult (World × SpriteEntity) → Option (List MeshKey)
  | .ok (_, e) => some e.sprite3d.texture_atlas_keys
  | _ => none

/-- Status of one pending wait task as observed by
`finalize_waiting_sprites` (`src/lib.rs:304-316`). -/
inductive TaskStatus where
  | pending : TaskStatus
  | failed : TaskStatus
  | done : TaskStatus
deriving DecidableEq

/-- Replace the stored components of one entity. -/
def updateEnt (ents : List (ℕ × SpriteEntity)) (eid : ℕ) (e : SpriteEntity) :
    List (ℕ × SpriteEntity) :=
  ents.map (fun p => if p.1 = eid then (eid, e) else p)

/-- Result of one `finalize_waiting_sprites` run: the world, the live
entities and the records kept for the next frame. -/
structure FinalizeOut where
  world : World
  ents : List (ℕ × SpriteEntity)
  stillWaiting : List (ℕ × TaskStatus)
deriving DecidableEq

/-- The `finalize_waiting_sprites` drain loop (`src/lib.rs:303-431`):
unfinished tasks are kept for the next frame; failed loads are logged and
dropped leaving the entity untouched; completed tasks resolve their
entity unless it was despawned (`query.get_mut` fails) or no longer
carries the `Sprite3dBuilder` marker, in which case they are silently
dropped. -/
def finalizeWaiting (w : World) (ents : List (ℕ × SpriteEntity)) :
    List (ℕ × TaskStatus) → BuildResult FinalizeOut
  | [] => .ok ⟨w, ents, []⟩
  | (eid, .pending) :: rest =>
      match finalizeWaiting w ents rest with
      | .ok out => .ok { out with stillWaiting := (eid, .pending) :: out.stillWaiting }
      | r => r
  | (_, .failed) :: rest => finalizeWaiting w ents rest
  | (eid, .done) :: rest =>
      match alookup ents eid with
      | none => finalizeWaiting w ents rest
      | some ent =>
          if ent.builder then
            match finalizeEntity w ent with
            | .notReady => finalizeWaiting w ents rest
            | .panicked => .panicked
            | .ok (w', ent') => finalizeWaiting w' (updateEnt ents eid ent') rest
          else finalizeWaiting w ents rest

/-- The `handle_images` system, one changed entity
(`src/lib.rs:437-490`): with a user material, patch the existing asset in
place; otherwise resolve the material key against the cache (inserting a
fresh material on a miss) and attach the resulting handle.  The mesh
cache, mesh assets and every non-material component are untouched. -/
def handleImagesStep (meshCache : List (MeshKey × ℕ)) (st : MatSt)
    (ent : SpriteEntity) : (List (MeshKey × ℕ) × MatSt) × SpriteEntity :=
  let out := materialPhase ent.sprite ent.sprite3d ent.userMaterial ent.mat st
  ((meshCache, out.2), { ent with mat := out.1 })

/-- The `handle_texture_atlases` system, one changed entity
(`src/lib.rs:495-510`): for an atlas sprite, look up
`texture_atlas_keys[index]` (via `get`, not a panicking index) and swap
in the cached mesh when both lookups succeed; otherwise leave the
attached mesh unchanged.  The caches are taken immutably (`Res`), and no
mesh is ever built. -/
def handleTextureAtlasesStep (meshCache : List (MeshKey × ℕ))
    (mesh : ℕ) (s3 : Sprite3d) (sp : Sprite) : ℕ :=
  match sp.texture_atlas with
  | none => mesh
  | some ta =>
      match s3.texture_atlas_keys[ta.index]? with
      | none => mesh
      | some key =>
          match alookup meshCache key with
          | none => mesh
          | some m => m

/-- Well-formedness of the material cache relative to the next fresh
handle: every cached handle is below the allocation counter, and
distinct keys always hold distinct handles.  Holds of the empty cache
and is preserved by resolution (`matPhase_wf`). -/
def MatCacheWF (cache : List (MatKey × ℕ)) (ctr : ℕ) : Prop :=
  (∀ p ∈ cache, p.2 < ctr) ∧
  ∀ p ∈ cache, ∀ q ∈ cache, p.2 = q.2 → p.1 = q.1

/-- A plain sprite with a red tint `(255, 0, 0, 255)`. -/
def spRed : Sprite :=
  { image := 0, texture_atlas := none, color := ⟨1, 0, 0, 1⟩,
    flip_x := false, flip_y := false }

/-- The same sprite with a green tint `(0, 255, 0, 255)`. -/
def spGreen : Sprite :=
  { image := 0, texture_atlas := none, color := ⟨0, 1, 0, 1⟩,
    flip_x := false, flip_y := false }

/-- The same sprite with a tint differing from red by less than one
colour-quantization unit in the green channel. -/
def spTiny : Sprite :=
  { image := 0, texture_atlas := none, color := ⟨1, 1/1000, 0, 1⟩,
    flip_x := false, flip_y := false }

/-- The empty material-side state. -/
def emptyMatSt : MatSt := ⟨[], [], 0⟩

/-- The geometry-key function a resolution run applies to each atlas
sub-rectangle, with the image dimensions and the sprite's parameters
fixed (the `pivot.unwrap_or((0.5, 0.5))` of both paths included). -/
def atlasKeyFn (dims : ℕ × ℕ) (s3 : Sprite3d) : URect → MeshKey :=
  meshKeyAtlasRect dims.1 dims.2 s3.pixels_per_metre (s3.pivot.getD (1/2, 1/2))
    s3.double_sided

/-- A 10×10-pixel atlas frame at the image origin. -/
def rA : URect := ⟨0, 0, 10, 10⟩

/-- A 10×10-pixel atlas frame next to `rA`. -/
def rC : URect := ⟨10, 0, 20, 10⟩

/-- A world holding one 100×100 image and one atlas layout whose two
frames are identical copies of `rA`. -/
def wAtlasDup : World :=
  { images := [(0, (100, 100))], layouts := [(0, [rA, rA])],
    mesh_cache := [], meshes := [], meshCtr := 0, mats := emptyMatSt }

/-- A world holding one 100×100 image and one atlas layout with two
distinct frames. -/
def wAtlasDistinct : World :=
  { images := [(0, (100, 100))], layouts := [(0, [rA, rC])],
    mesh_cache := [], meshes := [], meshCtr := 0, mats := emptyMatSt }

/-- A world holding one 100×100 image and no atlas layouts. -/
def wPlain : World :=
  { images := [(0, (100, 100))], layouts := [],
    mesh_cache := [], meshes := [], meshCtr := 0, mats := emptyMatSt }

/-- A freshly declared atlas sprite entity on frame 0, defaults
otherwise. -/
def entAtlas : SpriteEntity :=
  { sprite3d := Sprite3d.default
    sprite := { image := 0, texture_atlas := some ⟨0, 0⟩, color := LinearRgba.WHITE,
                flip_x := false, flip_y := false }
    mesh := 0, mat := 0, userMaterial := false, builder := true }

/-- A freshly declared plain (non-atlas) sprite entity. -/
def entPlain : SpriteEntity :=
  { sprite3d := Sprite3d.default
    sprite := { image := 0, texture_atlas := none, color := LinearRgba.WHITE,
                flip_x := false, flip_y := false }
    mesh := 0, mat := 0, userMaterial := false, builder := true }

/-! ### Helper lemmas -/

lemma castU8_of_one_le {q : ℚ} (h : 1 ≤ q) : castU8 (q * 255) = 255 := by
  unfold castU8
  have h255 : (255 : ℚ) ≤ q * 255 := by nlinarith
  have hf : (255 : ℤ) ≤ (q * 255).floor := Rat.le_floor.mpr (by exact_mod_cast h255)
  have hn : 255 ≤ (q * 255).floor.toNat := by
    rw [Int.le_toNat (le_trans (by norm_num) hf)]
    exact_mod_cast hf
  omega

lemma castU8_of_nonpos {q : ℚ} (h : q ≤ 0) : castU8 (q * 255) = 0 := by
  unfold castU8
  have h0 : (q * 255 : ℚ) ≤ 0 := by nlinarith
  have hfl : (q * 255).floor ≤ 0 := by
    by_contra hc
    push_neg at hc
    have h1 : (1 : ℤ) ≤ (q * 255).floor := hc
    have : ((1 : ℤ) : ℚ) ≤ q * 255 := Rat.le_floor.mp h1
    have : (1 : ℚ) ≤ q * 255 := by exact_mod_cast this
    linarith
  have : (q * 255).floor.toNat = 0 := Int.toNat_of_nonpos hfl
  omega

lemma castU8_le (q : ℚ) : castU8 q ≤ 255 := by
  unfold castU8
  omega

/-- C10: `reduce_colour` is total and saturating: every channel byte is at
most 255; a channel at or above 1 maps to 255, a channel at or below 0
maps to 0, and a NaN channel maps to 0; consequently all out-of-range
channel values on the same side collapse to the same quantized byte. -/
theorem C10_reduce_colour_total_saturating :
    (∀ x : F32, reduceChannel x ≤ 255) ∧
    (∀ q : ℚ, 1 ≤ q → reduceChannel (.val q) = 255) ∧
    (∀ q : ℚ, q ≤ 0 → reduceChannel (.val q) = 0) ∧
    reduceChannel .nan = 0 ∧
    (∀ c : LinearRgba, ∀ n ∈ reduce_colour c, n ≤ 255) ∧
    (∀ q1 q2 : ℚ, 1 ≤ q1 → 1 ≤ q2 → reduceChannel (.val q1) = reduceChannel (.val q2)) ∧
    (∀ q1 q2 : ℚ, q1 ≤ 0 → q2 ≤ 0 → reduceChannel (.val q1) = reduceChannel (.val q2)) := by
  have hval : ∀ q : ℚ, reduceChannel (.val q) = castU8 (q * 255) := fun q => rfl
  refine ⟨?_, ?_, ?_, rfl, ?_, ?_, ?_⟩
  · intro x
    cases x with
    | nan => simp [reduceChannel, F32.mul255, F32.toU8]
    | val q => rw [hval]; exact castU8_le _
  · intro q h; rw [hval]; exact castU8_of_one_le h
  · intro q h; rw [hval]; exact castU8_of_nonpos h
  · intro c n hn
    simp only [reduce_colour, List.mem_cons, List.not_mem_nil, or_false] at hn
    rcases hn with h | h | h | h <;> (subst h; rw [hval]; exact castU8_le _)
  · intro q1 q2 h1 h2
    rw [hval, hval, castU8_of_one_le h1, castU8_of_one_le h2]
  · intro q1 q2 h1 h2
    rw [hval, hval, castU8_of_nonpos h1, castU8_of_nonpos h2]

/-- C10 witness: the saturating branches at concrete channel values. -/
theorem C10_witness : (1 : ℚ) ≤ 5/2 ∧ reduceChannel (.val (5/2)) = 255 :=
  ⟨by norm_num, C10_reduce_colour_total_saturating.2.1 (5/2) (by norm_num)⟩

/-- C3 (amended): geometry-key derivation is deterministic, and two
parameter tuples yield equal keys whenever each continuous parameter
falls in the same quantization cell (equal floors after scaling by the
granularity constant).  The claim's stronger rounding law — parameters
closer than one quantization unit always yield equal keys — is refuted
by `C3_counterexample`. -/
theorem C3_key_quantization_cells :
    (∀ (w h : ℚ) (p : ℚ × ℚ) (ds : Bool),
      meshKeyPlain w h p ds = meshKeyPlain w h p ds) ∧
    (∀ (iw ih : ℕ) (ppm : ℚ) (p : ℚ × ℚ) (ds : Bool) (r : URect),
      meshKeyAtlasRect iw ih ppm p ds r = meshKeyAtlasRect iw ih ppm p ds r) ∧
    (∀ (w w' h h' px px' py py' : ℚ) (ds : Bool),
      (w * MESH_CACHE_GRANULARITY).floor = (w' * MESH_CACHE_GRANULARITY).floor →
      (h * MESH_CACHE_GRANULARITY).floor = (h' * MESH_CACHE_GRANULARITY).floor →
      (px * MESH_CACHE_GRANULARITY).floor = (px' * MESH_CACHE_GRANULARITY).floor →
      (py * MESH_CACHE_GRANULARITY).floor = (py' * MESH_CACHE_GRANULARITY).floor →
      meshKeyPlain w h (px, py) ds = meshKeyPlain w' h' (px', py') ds) := by
  refine ⟨fun _ _ _ _ => rfl, fun _ _ _ _ _ _ => rfl, ?_⟩
  intro w w' h h' px px' py py' ds h1 h2 h3 h4
  simp [meshKeyPlain, castU32, h1, h2, h3, h4]

/-- C3 witness: two distinct widths inside one quantization cell yield
the same key. -/
theorem C3_witness :
    ((1/2000 : ℚ) * MESH_CACHE_GRANULARITY).floor
      = ((1/3000 : ℚ) * MESH_CACHE_GRANULARITY).floor ∧
    meshKeyPlain (1/2000) 1 (1/2, 1/2) true = meshKeyPlain (1/3000) 1 (1/2, 1/2) true :=
  ⟨by with_unfolding_all rfl,
   C3_key_quantization_cells.2.2 (1/2000) (1/3000) 1 1 (1/2) (1/2) (1/2) (1/2) true
     (by with_unfolding_all rfl) (by with_unfolding_all rfl)
     (by with_unfolding_all rfl) (by with_unfolding_all rfl)⟩

/-- C3 counterexample: two widths differing by less than one quantization
unit (1/1000) that straddle a cell boundary produce different keys, so
the claim's rounding law fails for truncation-based quantization. -/
theorem C3_counterexample :
    |(9/10000 : ℚ) - 11/10000| < 1/1000 ∧
    meshKeyPlain (9/10000) 1 (1/2, 1/2) true ≠ meshKeyPlain (11/10000) 1 (1/2, 1/2) true := by
  constructor
  · rw [abs_sub_lt_iff]; constructor <;> norm_num
  · exact of_decide_eq_true (by with_unfolding_all rfl)

/-- C6 (amended): when the current atlas frame's geometry key is absent
from the mesh cache (or the frame index is out of range of the key
list), `handle_texture_atlases` silently leaves the attached mesh
unchanged and continues; it neither asserts nor terminates.  Refutation
of the stated assert/terminate behaviour is `C6_counterexample`. -/
theorem C6_missing_key_leaves_mesh (mc : List (MeshKey × ℕ)) (mesh : ℕ)
    (s3 : Sprite3d) (sp : Sprite) (ta : TextureAtlas) (key : MeshKey)
    (hta : sp.texture_atlas = some ta)
    (hkey : s3.texture_atlas_keys[ta.index]? = some key)
    (hmiss : alookup mc key = none) :
    handleTextureAtlasesStep mc mesh s3 sp = mesh := by
  simp [handleTextureAtlasesStep, hta, hkey, hmiss]

/-- C6 witness: the silent-skip behaviour at a concrete state. -/
theorem C6_witness :
    handleTextureAtlasesStep []
      7 { Sprite3d.default with texture_atlas_keys := [[1, 2, 3, 4, 5, 6, 7, 8, 9]] }
      { image := 0, texture_atlas := some ⟨0, 0⟩, color := LinearRgba.WHITE,
        flip_x := false, flip_y := false } = 7 :=
  C6_missing_key_leaves_mesh [] 7
    { Sprite3d.default with texture_atlas_keys := [[1, 2, 3, 4, 5, 6, 7, 8, 9]] }
    { image := 0, texture_atlas := some ⟨0, 0⟩, color := LinearRgba.WHITE,
      flip_x := false, flip_y := false }
    ⟨0, 0⟩ [1, 2, 3, 4, 5, 6, 7, 8, 9] rfl rfl rfl

/-- C6 counterexample: at a concrete state whose frame key is missing
from the cache, the routine completes normally with the attached mesh
unchanged, contradicting the claimed assert/terminate behaviour. -/
theorem C6_counterexample :
    alookup ([] : List (MeshKey × ℕ)) [1, 2, 3, 4, 5, 6, 7, 8, 9] = none ∧
    handleTextureAtlasesStep []
      7 { Sprite3d.default with texture_atlas_keys := [[1, 2, 3, 4, 5, 6, 7, 8, 9]] }
      { image := 0, texture_atlas := some ⟨0, 0⟩, color := LinearRgba.WHITE,
        flip_x := false, flip_y := false } = 7 := by
  exact ⟨rfl, rfl⟩

/-- C8: `finalize_waiting_sprites` isolates failures: a record whose load
task failed is dropped with the world and every entity untouched,
processing of the remaining records continuing unchanged; and a
completed record whose entity no longer exists is silently dropped the
same way. -/
theorem C8_finalize_error_isolation :
    (∀ (w : World) (ents : List (ℕ × SpriteEntity)) (eid : ℕ)
        (rest : List (ℕ × TaskStatus)),
      finalizeWaiting w ents ((eid, .failed) :: rest) = finalizeWaiting w ents rest) ∧
    (∀ (w : World) (ents : List (ℕ × SpriteEntity)) (eid : ℕ)
        (rest : List (ℕ × TaskStatus)),
      alookup ents eid = none →
      finalizeWaiting w ents ((eid, .done) :: rest) = finalizeWaiting w ents rest) := by
  constructor
  · intro w ents eid rest; rfl
  · intro w ents eid rest h
    simp [finalizeWaiting, h]

/-- C8 witness: a completed record naming a despawned entity is dropped
at a concrete state. -/
theorem C8_witness :
    alookup ([] : List (ℕ × SpriteEntity)) 5 = none ∧
    finalizeWaiting ⟨[], [], [], [], 0, ⟨[], [], 0⟩⟩ [] [(5, .done)]
      = finalizeWaiting ⟨[], [], [], [], 0, ⟨[], [], 0⟩⟩ [] [] :=
  ⟨rfl, C8_finalize_error_isolation.2 ⟨[], [], [], [], 0, ⟨[], [], 0⟩⟩ [] 5 [] rfl⟩

/-- C7: `quad` is a pure function of its four arguments producing exactly
8 positions; adding back the pivot offset `pivot * (w, h)` recovers the
canonical `[0,w] × [0,h]` corner list, so the pivot point maps to the
local origin; a `none` pivot coincides with pivot `(1/2, 1/2)` (centered
quad); the default UVs cover the full unit square; and the indices are
`0,1,2 / 1,3,2` plus, exactly when double-sided, the back-face pairs
`5,4,6 / 7,5,6`. -/
theorem C7_quad_shape :
    (∀ (w h : ℚ) (p : Option (ℚ × ℚ)) (ds : Bool),
      (quad w h p ds).positions.length = 8) ∧
    (∀ (w h : ℚ) (ds : Bool),
      quad w h none ds = quad w h (some (1/2, 1/2)) ds) ∧
    (∀ (w h px py : ℚ) (ds : Bool),
      (quad w h (some (px, py)) ds).positions.map
        (fun v => (v.1 + px * w, v.2.1 + py * h, v.2.2)) = quadCorners w h) ∧
    (∀ (w h : ℚ) (p : Option (ℚ × ℚ)) (ds : Bool),
      (quad w h p ds).uvs =
        [(0, 1), (1, 1), (0, 0), (1, 0), (0, 1), (1, 1), (0, 0), (1, 0)]) ∧
    (∀ (w h : ℚ) (p : Option (ℚ × ℚ)),
      (quad w h p true).indices = [0, 1, 2, 1, 3, 2, 5, 4, 6, 7, 5, 6]) ∧
    (∀ (w h : ℚ) (p : Option (ℚ × ℚ)),
      (quad w h p false).indices = [0, 1, 2, 1, 3, 2]) := by
  refine ⟨?_, ?_, ?_, ?_, ?_, ?_⟩
  · intro w h p ds; cases p <;> rfl
  · intro w h ds
    simp only [quad, Mesh.mk.injEq, List.cons.injEq, Prod.mk.injEq, and_true, true_and]
    norm_num
    repeat' constructor
    all_goals first | trivial | ring
  · intro w h px py ds
    simp only [quad, quadCorners, List.map_cons, List.map_nil, List.cons.injEq,
      Prod.mk.injEq, and_true]
    norm_num
  · intro w h p ds; cases p <;> rfl
  · intro w h p; cases p <;> rfl
  · intro w h p; cases p <;> rfl

lemma alookup_mem {α β : Type} [DecidableEq α] {k : α} {v : β} :
    ∀ {l : List (α × β)}, alookup l k = some v → (k, v) ∈ l := by
  intro l
  induction l with
  | nil => intro h; simp [alookup] at h
  | cons p rest ih =>
      obtain ⟨a, b⟩ := p
      intro h
      simp only [alookup] at h
      split at h
      · next heq =>
          injection h with hbv
          subst hbv; subst heq
          exact List.mem_cons_self _ _
      · exact List.mem_cons_of_mem _ (ih h)

/-- After the non-user material block runs, the cache maps the sprite's
material key to exactly the handle that was attached. -/
lemma matPhase_lookup_self (sp : Sprite) (s3 : Sprite3d) (cur : ℕ) (st : MatSt) :
    alookup (materialPhase sp s3 false cur st).2.cache (matKeyOf sp s3)
      = some (materialPhase sp s3 false cur st).1 := by
  unfold materialPhase
  cases hl : alookup st.cache (matKeyOf sp s3) with
  | some h => simp [hl]
  | none => simp [hl, alookup]

/-- C5: with a pre-attached user material, resolution bypasses the
material cache (cache and allocation counter untouched, handle kept) and
`applyUserDeltas` patches only the minimal fields: the texture is always
set, alpha mode / unlit / emissive / uv-flip change only when requested
non-default, and every other material field (roughness, reflectance,
base colour, cull mode) is preserved. -/
theorem C5_user_material_minimal_deltas :
    (∀ (s3 : Sprite3d) (sp : Sprite) (m : StdMaterial),
      (applyUserDeltas s3 sp m).perceptual_roughness = m.perceptual_roughness ∧
      (applyUserDeltas s3 sp m).reflectance = m.reflectance ∧
      (applyUserDeltas s3 sp m).base_color = m.base_color ∧
      (applyUserDeltas s3 sp m).cull_mode = m.cull_mode ∧
      (applyUserDeltas s3 sp m).base_color_texture = some sp.image) ∧
    (∀ (s3 : Sprite3d) (sp : Sprite) (m : StdMaterial),
      s3.alpha_mode = DEFAULT_ALPHA_MODE →
      (applyUserDeltas s3 sp m).alpha_mode = m.alpha_mode) ∧
    (∀ (s3 : Sprite3d) (sp : Sprite) (m : StdMaterial),
      s3.alpha_mode ≠ DEFAULT_ALPHA_MODE →
      (applyUserDeltas s3 sp m).alpha_mode = s3.alpha_mode) ∧
    (∀ (s3 : Sprite3d) (sp : Sprite) (m : StdMaterial),
      s3.unlit = false → (applyUserDeltas s3 sp m).unlit = m.unlit) ∧
    (∀ (s3 : Sprite3d) (sp : Sprite) (m : StdMaterial),
      s3.unlit = true → (applyUserDeltas s3 sp m).unlit = true) ∧
    (∀ (s3 : Sprite3d) (sp : Sprite) (m : StdMaterial),
      s3.emissive = LinearRgba.BLACK →
      (applyUserDeltas s3 sp m).emissive = m.emissive) ∧
    (∀ (s3 : Sprite3d) (sp : Sprite) (m : StdMaterial),
      s3.emissive ≠ LinearRgba.BLACK →
      (applyUserDeltas s3 sp m).emissive = s3.emissive) ∧
    (∀ (s3 : Sprite3d) (sp : Sprite) (m : StdMaterial),
      sp.flip_x = false → sp.flip_y = false →
      (applyUserDeltas s3 sp m).uv_transform = m.uv_transform) ∧
    (∀ (sp : Sprite) (s3 : Sprite3d) (cur : ℕ) (st : MatSt),
      (materialPhase sp s3 true cur st).1 = cur ∧
      (materialPhase sp s3 true cur st).2.cache = st.cache ∧
      (materialPhase sp s3 true cur st).2.ctr = st.ctr) := by
  refine ⟨?_, ?_, ?_, ?_, ?_, ?_, ?_, ?_, ?_⟩
  · intro s3 sp m
    simp only [applyUserDeltas]
    repeat' split
    all_goals exact ⟨rfl, rfl, rfl, rfl, rfl⟩
  · intro s3 sp m hα
    simp only [applyUserDeltas]
    repeat' split
    all_goals first | rfl | (exfalso; exact absurd hα (by assumption))
  · intro s3 sp m hα
    simp only [applyUserDeltas]
    repeat' split
    all_goals rfl
  · intro s3 sp m hu
    simp only [applyUserDeltas]
    repeat' split
    all_goals first | rfl | simp_all
  · intro s3 sp m hu
    simp only [applyUserDeltas, hu]
    repeat' split
    all_goals first | rfl | simp_all
  · intro s3 sp m he
    simp only [applyUserDeltas]
    repeat' split
    all_goals first | rfl | (exfalso; exact absurd he (by assumption))
  · intro s3 sp m he
    simp only [applyUserDeltas]
    repeat' split
    all_goals rfl
  · intro s3 sp m hx hy
    simp only [applyUserDeltas, hx, hy]
    repeat' split
    all_goals rfl
  · intro sp s3 cur st
    cases hl : alookup st.store cur <;> simp [materialPhase, hl]

/-- C5 witness: the alpha-mode delta is skipped at a concrete default
descriptor. -/
theorem C5_witness :
    Sprite3d.default.alpha_mode = DEFAULT_ALPHA_MODE ∧
    (applyUserDeltas Sprite3d.default
        { image := 0, texture_atlas := none, color := LinearRgba.WHITE,
          flip_x := false, flip_y := false }
        StdMaterial.default).alpha_mode = StdMaterial.default.alpha_mode :=
  ⟨rfl, C5_user_material_minimal_deltas.2.1 Sprite3d.default
    { image := 0, texture_atlas := none, color := LinearRgba.WHITE,
      flip_x := false, flip_y := false }
    StdMaterial.default rfl⟩

/-- C9: `handle_images` leaves the mesh cache and every non-material
component (attached mesh handle, `Sprite3d`, `Sprite`) unchanged, and
attaches exactly the cached material handle for the freshly derived
material key; `handle_texture_atlases` swaps in exactly the cached mesh
addressed by `texture_atlas_keys[index]` when present, and its output is
always either the previous mesh or a cache entry — it never constructs a
mesh and has no write access to the caches. -/
theorem C9_mutation_reaction :
    (∀ (mc : List (MeshKey × ℕ)) (st : MatSt) (ent : SpriteEntity),
      (handleImagesStep mc st ent).1.1 = mc ∧
      ((handleImagesStep mc st ent).2).mesh = ent.mesh ∧
      ((handleImagesStep mc st ent).2).sprite3d = ent.sprite3d ∧
      ((handleImagesStep mc st ent).2).sprite = ent.sprite) ∧
    (∀ (mc : List (MeshKey × ℕ)) (st : MatSt) (ent : SpriteEntity),
      ent.userMaterial = false →
      alookup (handleImagesStep mc st ent).1.2.cache (matKeyOf ent.sprite ent.sprite3d)
        = some ((handleImagesStep mc st ent).2).mat) ∧
    (∀ (mc : List (MeshKey × ℕ)) (mesh : ℕ) (s3 : Sprite3d) (sp : Sprite)
        (ta : TextureAtlas) (key : MeshKey) (m : ℕ),
      sp.texture_atlas = some ta →
      s3.texture_atlas_keys[ta.index]? = some key →
      alookup mc key = some m →
      handleTextureAtlasesStep mc mesh s3 sp = m) ∧
    (∀ (mc : List (MeshKey × ℕ)) (mesh : ℕ) (s3 : Sprite3d) (sp : Sprite),
      handleTextureAtlasesStep mc mesh s3 sp = mesh ∨
      ∃ key, alookup mc key = some (handleTextureAtlasesStep mc mesh s3 sp)) := by
  refine ⟨?_, ?_, ?_, ?_⟩
  · intro mc st ent
    exact ⟨rfl, rfl, rfl, rfl⟩
  · intro mc st ent h
    show alookup (materialPhase ent.sprite ent.sprite3d ent.userMaterial ent.mat st).2.cache
        (matKeyOf ent.sprite ent.sprite3d)
      = some (materialPhase ent.sprite ent.sprite3d ent.userMaterial ent.mat st).1
    rw [h]
    exact matPhase_lookup_self _ _ _ _
  · intro mc mesh s3 sp ta key m hta hk hl
    simp [handleTextureAtlasesStep, hta, hk, hl]
  · intro mc mesh s3 sp
    rcases hta : sp.texture_atlas with _ | ta
    · left; simp [handleTextureAtlasesStep, hta]
    · rcases hk : s3.texture_atlas_keys[ta.index]? with _ | key
      · left; simp [handleTextureAtlasesStep, hta, hk]
      · rcases hl : alookup mc key with _ | m
        · left; simp [handleTextureAtlasesStep, hta, hk, hl]
        · right; exact ⟨key, by simp [handleTextureAtlasesStep, hta, hk, hl]⟩

/-- C9 witness: the O(1) frame swap at a concrete cached key. -/
theorem C9_witness :
    alookup [([1, 2, 3, 4, 5, 6, 7, 8, 9], 42)] [1, 2, 3, 4, 5, 6, 7, 8, 9] = some 42 ∧
    handleTextureAtlasesStep [([1, 2, 3, 4, 5, 6, 7, 8, 9], 42)] 7
      { Sprite3d.default with texture_atlas_keys := [[1, 2, 3, 4, 5, 6, 7, 8, 9]] }
      { image := 0, texture_atlas := some ⟨0, 0⟩, color := LinearRgba.WHITE,
        flip_x := false, flip_y := false } = 42 :=
  ⟨rfl, C9_mutation_reaction.2.2.1 [([1, 2, 3, 4, 5, 6, 7, 8, 9], 42)] 7
    { Sprite3d.default with texture_atlas_keys := [[1, 2, 3, 4, 5, 6, 7, 8, 9]] }
    { image := 0, texture_atlas := some ⟨0, 0⟩, color := LinearRgba.WHITE,
      flip_x := false, flip_y := false }
    ⟨0, 0⟩ [1, 2, 3, 4, 5, 6, 7, 8, 9] 42 rfl rfl rfl⟩

/-- Cache-hit equation for the non-user material block. -/
lemma matPhase_hit {sp : Sprite} {s3 : Sprite3d} {cur : ℕ} {st : MatSt} {v : ℕ}
    (hl : alookup st.cache (matKeyOf sp s3) = some v) :
    materialPhase sp s3 false cur st = (v, st) := by
  simp [materialPhase, hl]

/-- Cache-miss equation for the non-user material block: a fresh handle
is allocated, cached and attached. -/
lemma matPhase_miss {sp : Sprite} {s3 : Sprite3d} {cur : ℕ} {st : MatSt}
    (hl : alookup st.cache (matKeyOf sp s3) = none) :
    materialPhase sp s3 false cur st =
      (st.ctr,
       ⟨(matKeyOf sp s3, st.ctr) :: st.cache,
        (st.ctr, { build_material sp.image s3.alpha_mode s3.unlit s3.emissive sp.flip_x sp.flip_y
                   with base_color := sp.color }) :: st.store,
        st.ctr + 1⟩) := by
  simp [materialPhase, hl]

/-- The non-user material block preserves cache well-formedness. -/
lemma matPhase_wf {sp : Sprite} {s3 : Sprite3d} {cur : ℕ} {st : MatSt}
    (h : MatCacheWF st.cache st.ctr) :
    MatCacheWF (materialPhase sp s3 false cur st).2.cache
      (materialPhase sp s3 false cur st).2.ctr := by
  cases hl : alookup st.cache (matKeyOf sp s3) with
  | some v => rw [matPhase_hit hl]; exact h
  | none =>
      rw [matPhase_miss hl]
      constructor
      · intro p hp
        rcases List.mem_cons.mp hp with rfl | hp
        · exact Nat.lt_succ_self _
        · exact Nat.lt_succ_of_lt (h.1 p hp)
      · intro p hp q hq hpq
        rcases List.mem_cons.mp hp with rfl | hp <;> rcases List.mem_cons.mp hq with rfl | hq
        · rfl
        · exfalso; have := h.1 q hq; simp only at hpq; omega
        · exfalso; have := h.1 p hp; simp only at hpq; omega
        · exact h.2 p hp q hq hpq

/-- C4 (amended): starting from any well-formed state, two sprites
resolved in sequence share one material handle exactly when their
derived material keys agree — i.e. when all material-relevant fields
agree after colour quantization.  Concretely, red and green tints give
distinct handles and identical descriptors share one handle.  The
claim's stronger reading — any difference in the raw descriptor fields
forces distinct handles — is refuted by `C4_counterexample`. -/
theorem C4_material_handle_sharing :
    (∀ (sp1 : Sprite) (s31 : Sprite3d) (sp2 : Sprite) (s32 : Sprite3d)
        (cur1 cur2 : ℕ) (st : MatSt),
      MatCacheWF st.cache st.ctr →
      ((materialPhase sp2 s32 false cur2 (materialPhase sp1 s31 false cur1 st).2).1
          = (materialPhase sp1 s31 false cur1 st).1
        ↔ matKeyOf sp2 s32 = matKeyOf sp1 s31)) ∧
    (materialPhase spGreen Sprite3d.default false 0
        (materialPhase spRed Sprite3d.default false 0 emptyMatSt).2).1
      ≠ (materialPhase spRed Sprite3d.default false 0 emptyMatSt).1 ∧
    (materialPhase spRed Sprite3d.default false 0
        (materialPhase spRed Sprite3d.default false 0 emptyMatSt).2).1
      = (materialPhase spRed Sprite3d.default false 0 emptyMatSt).1 := by
  refine ⟨?_, ?_, ?_⟩
  · intro sp1 s31 sp2 s32 cur1 cur2 st hwf
    have L1 := matPhase_lookup_self sp1 s31 cur1 st
    have W1 := @matPhase_wf sp1 s31 cur1 st hwf
    constructor
    · intro heq
      by_contra hne
      cases hl2 : alookup (materialPhase sp1 s31 false cur1 st).2.cache (matKeyOf sp2 s32) with
      | some v =>
          have h2v : (materialPhase sp2 s32 false cur2
              (materialPhase sp1 s31 false cur1 st).2).1 = v := by
            rw [matPhase_hit hl2]
          exact hne (W1.2 _ (alookup_mem hl2) _ (alookup_mem L1) (by rw [← h2v, heq]))
      | none =>
          have h2v : (materialPhase sp2 s32 false cur2
              (materialPhase sp1 s31 false cur1 st).2).1
              = (materialPhase sp1 s31 false cur1 st).2.ctr := by
            rw [matPhase_miss hl2]
          have hlt := W1.1 _ (alookup_mem L1)
          rw [h2v] at heq
          omega
    · intro hkeq
      have hl : alookup (materialPhase sp1 s31 false cur1 st).2.cache (matKeyOf sp2 s32)
          = some (materialPhase sp1 s31 false cur1 st).1 := by
        rw [hkeq]; exact L1
      rw [matPhase_hit hl]
  · exact of_decide_eq_true (by with_unfolding_all rfl)
  · exact of_decide_eq_true (by with_unfolding_all rfl)

/-- C4 witness: the key-sharing law applied to the red/green pair from
the empty well-formed state. -/
theorem C4_witness :
    MatCacheWF emptyMatSt.cache emptyMatSt.ctr ∧
    ((materialPhase spGreen Sprite3d.default false 0
        (materialPhase spRed Sprite3d.default false 0 emptyMatSt).2).1
      = (materialPhase spRed Sprite3d.default false 0 emptyMatSt).1
     ↔ matKeyOf spGreen Sprite3d.default = matKeyOf spRed Sprite3d.default) :=
  ⟨⟨by simp [emptyMatSt], by simp [emptyMatSt]⟩,
   C4_material_handle_sharing.1 spRed Sprite3d.default spGreen Sprite3d.default 0 0
     emptyMatSt ⟨by simp [emptyMatSt], by simp [emptyMatSt]⟩⟩

/-- C4 counterexample: two sprites whose raw tint fields differ (by less
than one quantization unit) still share one material handle, because the
key quantizes the colour; so "any differing material-relevant field
yields different handles" fails as stated. -/
theorem C4_counterexample :
    spRed.color ≠ spTiny.color ∧
    (materialPhase spTiny Sprite3d.default false 0
        (materialPhase spRed Sprite3d.default false 0 emptyMatSt).2).1
      = (materialPhase spRed Sprite3d.default false 0 emptyMatSt).1 := by
  constructor
  · exact of_decide_eq_true (by with_unfolding_all rfl)
  · exact of_decide_eq_true (by with_unfolding_all rfl)

/-! ### Lemmas for the two resolution paths -/

lemma cacheEnsure_keys (iw ih : ℕ) (ppm : ℚ) (pv : ℚ × ℚ) (ds : Bool)
    (st : BuildSt) (r : URect) (key : MeshKey) :
    (cacheEnsure iw ih ppm pv ds st r key).keys = st.keys := by
  unfold cacheEnsure
  split <;> rfl

lemma stepDeferred_keys (iw ih : ℕ) (ppm : ℚ) (pv : ℚ × ℚ) (ds : Bool)
    (st : BuildSt) (r : URect) :
    (atlasStepDeferred iw ih ppm pv ds st r).keys
      = st.keys ++ [meshKeyAtlasRect iw ih ppm pv ds r] := by
  unfold atlasStepDeferred
  rw [cacheEnsure_keys]

lemma foldDeferred_keys (iw ih : ℕ) (ppm : ℚ) (pv : ℚ × ℚ) (ds : Bool) :
    ∀ (rects : List URect) (st : BuildSt),
      (atlasFoldDeferred iw ih ppm pv ds rects st).keys
        = st.keys ++ rects.map (meshKeyAtlasRect iw ih ppm pv ds) := by
  intro rects
  induction rects with
  | nil => intro st; simp [atlasFoldDeferred]
  | cons r rest IH =>
      intro st
      show (atlasFoldDeferred iw ih ppm pv ds rest
        (atlasStepDeferred iw ih ppm pv ds st r)).keys = _
      rw [IH, stepDeferred_keys]
      simp

lemma stepImm_eq_stepDeferred {iw ih : ℕ} {ppm : ℚ} {pv : ℚ × ℚ} {ds : Bool}
    {st : BuildSt} {r : URect}
    (h : st.keys.getLast? ≠ some (meshKeyAtlasRect iw ih ppm pv ds r)) :
    atlasStepImm iw ih ppm pv ds st r = atlasStepDeferred iw ih ppm pv ds st r := by
  simp only [atlasStepImm, atlasStepDeferred]
  rw [if_neg h]

lemma foldImm_eq_foldDeferred (iw ih : ℕ) (ppm : ℚ) (pv : ℚ × ℚ) (ds : Bool) :
    ∀ (rects : List URect) (st : BuildSt),
      List.Chain' (· ≠ ·) (rects.map (meshKeyAtlasRect iw ih ppm pv ds)) →
      (∀ r rest, rects = r :: rest →
        st.keys.getLast? ≠ some (meshKeyAtlasRect iw ih ppm pv ds r)) →
      atlasFoldImm iw ih ppm pv ds rects st
        = atlasFoldDeferred iw ih ppm pv ds rects st := by
  intro rects
  induction rects with
  | nil => intro st _ _; rfl
  | cons r rest IH =>
      intro st hchain hlast
      have hl := hlast r rest rfl
      show atlasFoldImm iw ih ppm pv ds rest (atlasStepImm iw ih ppm pv ds st r) = _
      rw [stepImm_eq_stepDeferred hl]
      apply IH
      · exact (List.chain'_cons'.mp (by simpa using hchain)).2
      · intro r' rest' hre
        subst hre
        rw [stepDeferred_keys, List.getLast?_concat]
        have hne : meshKeyAtlasRect iw ih ppm pv ds r
            ≠ meshKeyAtlasRect iw ih ppm pv ds r' := by
          have := hchain
          simp only [List.map_cons] at this
          exact (List.chain'_cons.mp this).1
        simp [hne]

/-- Equation lemma: `finalize_waiting_sprites` resolution of a ready
atlas sprite. -/
lemma finalizeEntity_atlas {w : World} {ent : SpriteEntity} {dims : ℕ × ℕ}
    {ta : TextureAtlas} {rects : List URect}
    (himg : alookup w.images ent.sprite.image = some dims)
    (hta : ent.sprite.texture_atlas = some ta)
    (hlay : alookup w.layouts ta.layout = some rects) :
    finalizeEntity w ent = finishResolve w ent
      ((dims.1 : ℚ) / ent.sprite3d.pixels_per_metre)
      ((dims.2 : ℚ) / ent.sprite3d.pixels_per_metre)
      (atlasFoldDeferred dims.1 dims.2 ent.sprite3d.pixels_per_metre
        (ent.sprite3d.pivot.getD (1/2, 1/2)) ent.sprite3d.double_sided rects
        ⟨ent.sprite3d.texture_atlas_keys, w.mesh_cache, w.meshes, w.meshCtr⟩) := by
  unfold finalizeEntity
  simp only [himg, hta, hlay]

/-- Equation lemma: `bundle_builder` resolution of a ready atlas
sprite. -/
lemma bundleBuilderEntity_atlas {w : World} {ent : SpriteEntity} {dims : ℕ × ℕ}
    {ta : TextureAtlas} {rects : List URect}
    (himg : alookup w.images ent.sprite.image = some dims)
    (hta : ent.sprite.texture_atlas = some ta)
    (hlay : alookup w.layouts ta.layout = some rects) :
    bundleBuilderEntity w ent = finishResolve w ent
      ((dims.1 : ℚ) / ent.sprite3d.pixels_per_metre)
      ((dims.2 : ℚ) / ent.sprite3d.pixels_per_metre)
      (atlasFoldImm dims.1 dims.2 ent.sprite3d.pixels_per_metre
        (ent.sprite3d.pivot.getD (1/2, 1/2)) ent.sprite3d.double_sided rects
        ⟨ent.sprite3d.texture_atlas_keys, w.mesh_cache, w.meshes, w.meshCtr⟩) := by
  unfold bundleBuilderEntity
  simp only [himg, hta, hlay]

/-- The two resolution paths agree on any sprite observed with empty
keys whenever no two consecutive atlas frames derive equal quantized
keys (in particular for every non-atlas sprite, and whenever either
asset is still missing, where both defer). -/
lemma paths_agree (w : World) (ent : SpriteEntity)
    (hkeys : ent.sprite3d.texture_atlas_keys = [])
    (hchain : ∀ (dims : ℕ × ℕ) (ta : TextureAtlas) (rects : List URect),
      alookup w.images ent.sprite.image = some dims →
      ent.sprite.texture_atlas = some ta →
      alookup w.layouts ta.layout = some rects →
      List.Chain' (· ≠ ·) (rects.map (atlasKeyFn dims ent.sprite3d))) :
    bundleBuilderEntity w ent = finalizeEntity w ent := by
  cases himg : alookup w.images ent.sprite.image with
  | none => unfold bundleBuilderEntity finalizeEntity; simp only [himg]
  | some dims =>
      cases hta : ent.sprite.texture_atlas with
      | none =>
          unfold bundleBuilderEntity finalizeEntity
          simp only [himg, hta, hkeys]
          simp
      | some ta =>
          cases hlay : alookup w.layouts ta.layout with
          | none =>
              unfold bundleBuilderEntity finalizeEntity
              simp only [himg, hta, hlay]
          | some rects =>
              rw [bundleBuilderEntity_atlas himg hta hlay,
                  finalizeEntity_atlas himg hta hlay,
                  foldImm_eq_foldDeferred _ _ _ _ _ rects _
                    (by simpa [atlasKeyFn] using hchain dims ta rects himg hta hlay)
                    (by intro r rest hre; rw [hkeys]; simp)]

/-- C1 (amended): for a sprite observed for the first time (empty key
list) with its image — and layout, if any — loaded, the immediate
`bundle_builder` path and the deferred `finalize_waiting_sprites` path
produce identical results (key list, attached mesh handle, attached
material handle and world state), provided no two consecutive atlas
frames derive equal quantized keys; for a duplicated frame the immediate
path's consecutive-duplicate check makes the paths diverge
(`C1_counterexample`). -/
theorem C1_deferred_path_equivalence (w : World) (ent : SpriteEntity)
    (hkeys : ent.sprite3d.texture_atlas_keys = [])
    (hchain : ∀ (dims : ℕ × ℕ) (ta : TextureAtlas) (rects : List URect),
      alookup w.images ent.sprite.image = some dims →
      ent.sprite.texture_atlas = some ta →
      alookup w.layouts ta.layout = some rects →
      List.Chain' (· ≠ ·) (rects.map (atlasKeyFn dims ent.sprite3d))) :
    bundleBuilderEntity w ent = finalizeEntity w ent :=
  paths_agree w ent hkeys hchain

/-- C1 witness: the two paths coincide on a concrete ready non-atlas
sprite. -/
theorem C1_witness :
    bundleBuilderEntity wPlain entPlain = finalizeEntity wPlain entPlain :=
  C1_deferred_path_equivalence wPlain entPlain rfl
    (by intro dims ta rects _ h2 _; simp [entPlain] at h2)

/-- C1 counterexample: with an atlas layout whose two frames coincide,
the immediate path records one key while the deferred path records two,
so the paths do not produce identical results as claimed. -/
theorem C1_counterexample :
    resultKeys (bundleBuilderEntity wAtlasDup entAtlas)
      ≠ resultKeys (finalizeEntity wAtlasDup entAtlas) :=
  of_decide_eq_true (by with_unfolding_all rfl)

/-- The attached key list of a resolution that reaches the shared tail
with a frame key available. -/
lemma resultKeys_finishResolve {w : World} {ent : SpriteEntity} {wq hq : ℚ}
    {st1 : BuildSt} {k : MeshKey}
    (hk : (match ent.sprite.texture_atlas with
           | some ta => st1.keys[ta.index]?
           | none => st1.keys.head?) = some k) :
    resultKeys (finishResolve w ent wq hq st1) = some st1.keys := by
  unfold finishResolve selectMeshPhase
  simp only [hk]
  cases alookup st1.mesh_cache k <;> rfl

/-- C2 (amended): after first resolution through the deferred path the
sprite's key list has exactly one entry per atlas sub-rectangle, entry
`i` being the quantized key of sub-rectangle `i`; the immediate path
yields the same N-entry list provided no two consecutive sub-rectangles
derive equal keys (its consecutive-duplicate check otherwise collapses
them, `C2_counterexample`). -/
theorem C2_atlas_key_list (w : World) (ent : SpriteEntity) (dims : ℕ × ℕ)
    (ta : TextureAtlas) (rects : List URect)
    (hkeys : ent.sprite3d.texture_atlas_keys = [])
    (himg : alookup w.images ent.sprite.image = some dims)
    (hta : ent.sprite.texture_atlas = some ta)
    (hlay : alookup w.layouts ta.layout = some rects)
    (hidx : ta.index < rects.length) :
    resultKeys (finalizeEntity w ent) = some (rects.map (atlasKeyFn dims ent.sprite3d)) ∧
    (List.Chain' (· ≠ ·) (rects.map (atlasKeyFn dims ent.sprite3d)) →
      resultKeys (bundleBuilderEntity w ent)
        = some (rects.map (atlasKeyFn dims ent.sprite3d))) := by
  have hfold : (atlasFoldDeferred dims.1 dims.2 ent.sprite3d.pixels_per_metre
      (ent.sprite3d.pivot.getD (1/2, 1/2)) ent.sprite3d.double_sided rects
      ⟨ent.sprite3d.texture_atlas_keys, w.mesh_cache, w.meshes, w.meshCtr⟩).keys
      = rects.map (atlasKeyFn dims ent.sprite3d) := by
    rw [foldDeferred_keys]
    rw [hkeys]
    simp [atlasKeyFn]
  have hsome : ∃ k, (rects.map (atlasKeyFn dims ent.sprite3d))[ta.index]? = some k := by
    refine ⟨_, List.getElem?_eq_getElem ?_⟩
    simpa using hidx
  obtain ⟨k, hk⟩ := hsome
  have hdef : resultKeys (finalizeEntity w ent)
      = some (rects.map (atlasKeyFn dims ent.sprite3d)) := by
    rw [finalizeEntity_atlas himg hta hlay]
    rw [resultKeys_finishResolve (k := k) (by rw [hta, hfold]; exact hk)]
    rw [hfold]
  refine ⟨hdef, fun hchain => ?_⟩
  have hagree := paths_agree w ent hkeys (by
    intro dims' ta' rects' himg' hta' hlay'
    rw [himg'] at himg
    injection himg with hd
    subst hd
    rw [hta'] at hta
    injection hta with ht
    subst ht
    rw [hlay'] at hlay
    injection hlay with hr
    subst hr
    exact hchain)
  rw [hagree]
  exact hdef

/-- C2 witness: a two-frame atlas with distinct frames resolves to the
two-entry key list on both paths. -/
theorem C2_witness :
    resultKeys (finalizeEntity wAtlasDistinct entAtlas)
      = some ([rA, rC].map (atlasKeyFn (100, 100) entAtlas.sprite3d)) ∧
    (List.Chain' (· ≠ ·) ([rA, rC].map (atlasKeyFn (100, 100) entAtlas.sprite3d)) →
      resultKeys (bundleBuilderEntity wAtlasDistinct entAtlas)
        = some ([rA, rC].map (atlasKeyFn (100, 100) entAtlas.sprite3d))) :=
  C2_atlas_key_list wAtlasDistinct entAtlas (100, 100) ⟨0, 0⟩ [rA, rC]
    rfl rfl rfl rfl (by decide)

/-- C2 counterexample: resolving the duplicated-frame atlas through the
immediate path records a single key although the layout defines two
sub-rectangles, so the key list does not have exactly N entries as
claimed. -/
theorem C2_counterexample :
    (alookup wAtlasDup.layouts 0).map List.length = some 2 ∧
    (resultKeys (bundleBuilderEntity wAtlasDup entAtlas)).map List.length = some 1 := by
  constructor
  · exact of_decide_eq_true (by with_unfolding_all rfl)
  · exact of_decide_eq_true (by with_unfolding_all rfl)

end S3D
